import Mathlib

/-!
# Gesture-Particle-Morph: verification of the core pipeline

Shallow embedding of the repository's core components:

* the landmark classifier (`HandManager`, `predictWebcam` in the hand-manager
  component): squared-distance finger-open tests and the ordered gesture
  rule list;
* the temporal debouncer (gesture buffer, modal scan, emission threshold);
* the target-field generators (`generateTextParticles`,
  `generateCloudParticles` in `particleUtils`);
* the particle morph engine (the per-frame loop of the `Particles`
  component).

Landmark coordinates are embedded as rationals (the code computes with
squared distances and fixed rational thresholds, so every comparison the
classifier makes is exact rational arithmetic).  The particle fields are
embedded over the reals because the cloud generator and the idle
perturbation use trigonometric functions.  External collaborators (the
hand-tracking model, the 2D canvas rasterizer, `Math.random`) are modelled
as explicit inputs: a raster environment (context availability, canvas
size, pixel data) and a random stream.
-/

/-- The five gesture labels of `types.ts` (`GestureType`). -/
inductive GestureType where
  | RESET
  | ONE
  | TWO
  | THREE
  | LOVE
deriving DecidableEq, Fintype, Repr

/-- `HandState` of `types.ts`: the debounced gesture plus tracking flag
emitted to the scene (`StableGestureState` in the specification). -/
structure StableGestureState where
  gesture : GestureType
  isTracking : Bool
deriving DecidableEq, Repr

/-! ## Landmark classifier -/

/-- One MediaPipe hand landmark; the classifier only reads `x` and `y`
(`distSq` in `predictWebcam` uses the two planar coordinates). -/
structure Landmark where
  x : ℚ
  y : ℚ

/-- A detected hand frame: the 21 landmarks, indexed as delivered by the
hand tracker (wrist = 0, thumb tip = 4, index MCP = 5, ...). -/
def HandFrame := Fin 21 → Landmark

/-- `distSq` of `predictWebcam`: squared planar distance of two landmarks. -/
def distSq (p q : Landmark) : ℚ :=
  (p.x - q.x) ^ 2 + (p.y - q.y) ^ 2

/-- `palmScaleSq` of `predictWebcam`: squared distance from the wrist (0)
to the index MCP (5), the hand-size reference. -/
def palmScaleSq (lm : HandFrame) : ℚ :=
  distSq (lm 0) (lm 5)

/-- `isFingerOpen` of `predictWebcam`: a finger is open when its tip is
further from the wrist than 1.1 times the PIP distance (squared). -/
def isFingerOpen (lm : HandFrame) (tipIdx pipIdx : Fin 21) : Bool :=
  distSq (lm 0) (lm tipIdx) > distSq (lm 0) (lm pipIdx) * 1.1

/-- Thumb-open test of `predictWebcam`: thumb tip (4) far from the index
MCP (5) relative to the palm scale. -/
def thumbOpenTest (lm : HandFrame) : Bool :=
  distSq (lm 4) (lm 5) > palmScaleSq lm * 0.6

/-- The ordered rule list of `predictWebcam`, factored over the five
finger-open booleans exactly as the source's if/else chain. -/
def classifyBits (thumb index middle ring pinky : Bool) : GestureType :=
  if index && middle && ring && pinky then GestureType.LOVE
  else if index && middle && ring && !pinky then GestureType.THREE
  else if thumb && index && middle && !ring && !pinky then GestureType.THREE
  else if index && middle && !ring && !pinky then GestureType.TWO
  else if thumb && index && !middle && !ring && !pinky then GestureType.TWO
  else if index && !middle && !ring && !pinky then GestureType.ONE
  else GestureType.RESET

/-- Classification of one present hand frame: compute the finger-open
booleans and run the rule list (`predictWebcam`, hands > 0 branch). -/
def classifyHand (lm : HandFrame) : GestureType :=
  classifyBits (thumbOpenTest lm)
    (isFingerOpen lm 8 6) (isFingerOpen lm 12 10)
    (isFingerOpen lm 16 14) (isFingerOpen lm 20 18)

/-- The full per-frame classifier: `RESET` when no hand is present,
otherwise the rule list on the first detected hand. -/
def classify : Option HandFrame → GestureType
  | none => GestureType.RESET
  | some lm => classifyHand lm

/-- The ordered rule list exactly as the specification words it (used to
compare the source chain against the spec's description). -/
def classifyBitsSpec (thumb index middle ring pinky : Bool) : GestureType :=
  if index = true ∧ middle = true ∧ ring = true ∧ pinky = true then
    GestureType.LOVE
  else if index = true ∧ middle = true ∧ ring = true ∧ pinky = false then
    GestureType.THREE
  else if thumb = true ∧ index = true ∧ middle = true ∧ ring = false ∧ pinky = false then
    GestureType.THREE
  else if index = true ∧ middle = true ∧ ring = false ∧ pinky = false then
    GestureType.TWO
  else if thumb = true ∧ index = true ∧ middle = false ∧ ring = false ∧ pinky = false then
    GestureType.TWO
  else if index = true ∧ middle = false ∧ ring = false ∧ pinky = false then
    GestureType.ONE
  else GestureType.RESET

/-! ## Temporal debouncer -/

/-- `BUFFER_SIZE` of the hand-manager component. -/
def BUFFER_SIZE : ℕ := 3

/-- Debouncer state: the rolling gesture buffer (newest at the back) and
the last emitted gesture (`gestureBuffer` / `lastEmittedGesture` refs). -/
structure DebounceState where
  buffer : List GestureType
  lastEmitted : GestureType
deriving DecidableEq, Repr

/-- The modal scan of `predictWebcam`: walk the buffer accumulating
per-label counts, taking a label as the new mode whenever its running
count strictly exceeds the running maximum.  `counts`, `maxCount` and
`smooth` mirror the source's `counts`, `maxCount` and `smoothGesture`. -/
def modeScan : List GestureType → (GestureType → ℕ) → ℕ → GestureType →
    GestureType × ℕ
  | [], _, maxCount, smooth => (smooth, maxCount)
  | g :: rest, counts, maxCount, smooth =>
    let c := counts g + 1
    let counts' : GestureType → ℕ := fun x => if x = g then c else counts x
    if c > maxCount then modeScan rest counts' c g
    else modeScan rest counts' maxCount smooth

/-- One debouncer update (`predictWebcam`, smoothing section): push the
raw gesture, trim the buffer to capacity (`shift`, i.e. drop the oldest),
take the modal label, and emit a new `StableGestureState` exactly when the
modal count strictly exceeds half the capacity (`maxCount > BUFFER_SIZE/2`
over JS numbers, i.e. `2 * maxCount > BUFFER_SIZE` over naturals) and the
modal label differs from the last emitted one. -/
def debounceUpdate (s : DebounceState) (raw : GestureType) (handPresent : Bool) :
    DebounceState × Option StableGestureState :=
  let buf1 := s.buffer ++ [raw]
  let buf := if buf1.length > BUFFER_SIZE then buf1.tail else buf1
  let scan := modeScan buf (fun _ => 0) 0 s.lastEmitted
  if 2 * scan.2 > BUFFER_SIZE then
    if scan.1 ≠ s.lastEmitted then
      (⟨buf, scan.1⟩, some ⟨scan.1, handPresent⟩)
    else (⟨buf, s.lastEmitted⟩, none)
  else (⟨buf, s.lastEmitted⟩, none)

/-- The distinct labels of a buffer in order of first appearance. -/
def firstSeen : List GestureType → List GestureType
  | [] => []
  | g :: rest => g :: (firstSeen rest).filter (fun x => x ≠ g)

/-- The specification's modal label: among the distinct labels in
first-appearance order, keep the one whose total count in the buffer is
strictly greater than the best so far — so an earlier distinct label
retains priority over a later one with equal count. -/
def specModal (b : List GestureType) (d : GestureType) : GestureType × ℕ :=
  (firstSeen b).foldl
    (fun best g => if b.count g > best.2 then (g, b.count g) else best) (d, 0)

/-- Iterated debouncer updates with a sustained identical raw gesture. -/
def sustain (s : DebounceState) (raw : GestureType) (hp : Bool) : ℕ → DebounceState
  | 0 => s
  | n + 1 => (debounceUpdate (sustain s raw hp n) raw hp).1

/-! ## Target-field generators (`particleUtils`) -/

/-- `PARTICLE_COUNT` of the `Particles` component. -/
def PARTICLE_COUNT : ℕ := 3000

/-- `MORPH_SPEED` of the `Particles` component. -/
noncomputable def MORPH_SPEED : ℝ := 0.1

/-- Flat particle array built by the generators' `for` loops: particle
`i` contributes its three components at indices `3*i`, `3*i+1`, `3*i+2`
(the loops fill `positions[i*3 + k]` for `i` from `0` upward). -/
noncomputable def flat3 : ℕ → (ℕ → ℝ × ℝ × ℝ) → List ℝ
  | 0, _ => []
  | n + 1, f => flat3 n f ++ [(f n).1, (f n).2.1, (f n).2.2]

/-- The offscreen-canvas state `generateTextParticles` observes after
drawing: whether `getContext('2d')` succeeded, the canvas dimensions, and
the rasterized RGBA byte stream (`imageData.data`, indexed bytewise).
Drawing itself (fonts, per-glyph fill colors) happens inside the external
canvas collaborator, so its output raster is an input here. -/
structure RasterEnv where
  ctxOk : Bool
  width : ℕ
  height : ℕ
  data : ℕ → ℕ

/-- The lit-pixel scan of `generateTextParticles` (`validPixels`): pixel
indices whose red, green or blue byte exceeds 30. -/
def collectValid (width height : ℕ) (data : ℕ → ℕ) : List ℕ :=
  (List.range (width * height)).filter
    (fun i => 30 < data (4 * i) ∨ 30 < data (4 * i + 1) ∨ 30 < data (4 * i + 2))

/-- The color list of `generateTextParticles` (`pixelColors`): pushed in
the same iterations as `validPixels`, each entry is the rasterized pixel's
RGB bytes normalized by 255. -/
noncomputable def pixelColorsOf (width height : ℕ) (data : ℕ → ℕ) :
    List (ℝ × ℝ × ℝ) :=
  (collectValid width height data).map
    (fun i => ((data (4 * i) : ℝ) / 255, (data (4 * i + 1) : ℝ) / 255,
      (data (4 * i + 2) : ℝ) / 255))

/-- `generateCloudParticles`: per particle, three `Math.random()` draws
(modelled as the stream entries `3*i`, `3*i+1`, `3*i+2`) give a
volume-uniform point in a sphere of radius 10; colors are the fixed dim
value `(0.1, 0.15, 0.2)`. -/
noncomputable def generateCloudParticles (rnd : ℕ → ℝ) (particleCount : ℕ) :
    List ℝ × List ℝ :=
  (flat3 particleCount (fun i =>
      let r := 10 * (rnd (3 * i)) ^ ((1 : ℝ) / 3)
      let theta := rnd (3 * i + 1) * (2 * Real.pi)
      let phi := Real.arccos (2 * rnd (3 * i + 2) - 1)
      (r * Real.sin phi * Real.cos theta,
       r * Real.sin phi * Real.sin theta,
       r * Real.cos phi)),
   flat3 particleCount (fun _ => (0.1, 0.15, 0.2)))

/-- `generateTextParticles`: if the 2D context is unavailable, return the
freshly allocated (all-zero) arrays; otherwise scan the raster for lit
pixels; if none are lit, fall back to the cloud field; otherwise sample,
for each particle slot, one lit pixel uniformly (one `Math.random()` draw
per slot, `sampleIdx = floor(random * validPixels.length)`) and place the
slot at that pixel's world position with the pixel's normalized color. -/
noncomputable def generateTextParticles (env : RasterEnv) (rnd : ℕ → ℝ)
    (particleCount : ℕ) : List ℝ × List ℝ :=
  if env.ctxOk = false then
    (List.replicate (particleCount * 3) 0, List.replicate (particleCount * 3) 0)
  else
    let validPixels := collectValid env.width env.height env.data
    let pixelColors := pixelColorsOf env.width env.height env.data
    if validPixels = [] then generateCloudParticles rnd particleCount
    else
      let scale : ℝ := 20 / env.width
      (flat3 particleCount (fun i =>
          let sampleIdx := (⌊rnd i * validPixels.length⌋).toNat
          let pixelIndex := validPixels.getD sampleIdx 0
          let x := pixelIndex % env.width
          let y := pixelIndex / env.width
          (((x : ℝ) - (env.width : ℝ) / 2) * scale,
           -(((y : ℝ) - (env.height : ℝ) / 2)) * scale,
           0)),
       flat3 particleCount (fun i =>
          let sampleIdx := (⌊rnd i * validPixels.length⌋).toNat
          pixelColors.getD sampleIdx (0, 0, 0)))

/-- The memoized target table of the `Particles` component (`targets`):
`RESET` maps to the cloud field, the other four gestures to text fields.
Each text field has its own canvas raster and random draws, so the
external inputs are indexed per gesture. -/
noncomputable def targetFor (envs : GestureType → RasterEnv)
    (rnds : GestureType → ℕ → ℝ) : GestureType → List ℝ × List ℝ
  | GestureType.RESET => generateCloudParticles (rnds GestureType.RESET) PARTICLE_COUNT
  | GestureType.ONE => generateTextParticles (envs GestureType.ONE) (rnds GestureType.ONE) PARTICLE_COUNT
  | GestureType.TWO => generateTextParticles (envs GestureType.TWO) (rnds GestureType.TWO) PARTICLE_COUNT
  | GestureType.THREE => generateTextParticles (envs GestureType.THREE) (rnds GestureType.THREE) PARTICLE_COUNT
  | GestureType.LOVE => generateTextParticles (envs GestureType.LOVE) (rnds GestureType.LOVE) PARTICLE_COUNT

/-! ## Particle morph engine (`Particles.useFrame`) -/

/-- The morph rate of the frame loop: 0.2 for `LOVE`, `MORPH_SPEED` = 0.1
otherwise (`const speed = gesture === GestureType.LOVE ? 0.2 : MORPH_SPEED`). -/
noncomputable def speed (gesture : GestureType) : ℝ :=
  if gesture = GestureType.LOVE then 0.2 else MORPH_SPEED

/-- One per-axis exponential step of the frame loop:
`current += (target - current) * speed`. -/
noncomputable def lerpStep (current target rate : ℝ) : ℝ :=
  current + (target - current) * rate

/-- Effective x target of particle `i`: the target field's x, plus the
idle oscillation `sin(t*0.5 + i) * 0.5` when the gesture is `RESET`. -/
noncomputable def effTargetX (target : List ℝ) (gesture : GestureType)
    (t : ℝ) (i : ℕ) : ℝ :=
  if gesture = GestureType.RESET then
    target.getD (3 * i) 0 + Real.sin (t * 0.5 + i) * 0.5
  else target.getD (3 * i) 0

/-- Effective y target of particle `i`: the target field's y, plus the
idle oscillation `cos(t*0.3 + i*0.5) * 0.5` when the gesture is `RESET`. -/
noncomputable def effTargetY (target : List ℝ) (gesture : GestureType)
    (t : ℝ) (i : ℕ) : ℝ :=
  if gesture = GestureType.RESET then
    target.getD (3 * i + 1) 0 + Real.cos (t * 0.3 + i * 0.5) * 0.5
  else target.getD (3 * i + 1) 0

/-- Effective z target of particle `i`: always the raw target z (the idle
perturbation never touches z). -/
noncomputable def effTargetZ (target : List ℝ) (i : ℕ) : ℝ :=
  target.getD (3 * i + 2) 0

/-- The position half of the frame loop: every slot moves toward its
effective target by the exponential step at the gesture's rate. -/
noncomputable def morphPositions (cur target : List ℝ) (gesture : GestureType)
    (t : ℝ) (count : ℕ) : List ℝ :=
  flat3 count (fun i =>
    (lerpStep (cur.getD (3 * i) 0) (effTargetX target gesture t i) (speed gesture),
     lerpStep (cur.getD (3 * i + 1) 0) (effTargetY target gesture t i) (speed gesture),
     lerpStep (cur.getD (3 * i + 2) 0) (effTargetZ target i) (speed gesture)))

/-- The color half of the frame loop: identical exponential step at the
identical rate, toward the target field's colors (no perturbation). -/
noncomputable def morphColors (cur target : List ℝ) (gesture : GestureType)
    (count : ℕ) : List ℝ :=
  flat3 count (fun i =>
    (lerpStep (cur.getD (3 * i) 0) (target.getD (3 * i) 0) (speed gesture),
     lerpStep (cur.getD (3 * i + 1) 0) (target.getD (3 * i + 1) 0) (speed gesture),
     lerpStep (cur.getD (3 * i + 2) 0) (target.getD (3 * i + 2) 0) (speed gesture)))

/-- One full frame of the morph engine: select the active gesture's target
field and morph positions and colors toward it. -/
noncomputable def morphStep (envs : GestureType → RasterEnv)
    (rnds : GestureType → ℕ → ℝ) (cur curColors : List ℝ)
    (gesture : GestureType) (t : ℝ) : List ℝ × List ℝ :=
  let targetData := targetFor envs rnds gesture
  (morphPositions cur targetData.1 gesture t PARTICLE_COUNT,
   morphColors curColors targetData.2 gesture PARTICLE_COUNT)

/-! ## Claim theorems -/

/-- C1: the per-frame classifier is the ordered rule list over the five
finger-open booleans — `RESET` with no hand; else `LOVE` when index,
middle, ring, pinky are all open; else `THREE` for the two three-finger
patterns; else `TWO` for the two two-finger patterns; else `ONE`; else
`RESET` — total over all 2^5 boolean combinations, yielding exactly one of
the five labels with earlier rules taking precedence. -/
theorem classify_rule_list_total :
    classify none = GestureType.RESET ∧
    (∀ lm : HandFrame, classify (some lm) =
      classifyBits (thumbOpenTest lm) (isFingerOpen lm 8 6)
        (isFingerOpen lm 12 10) (isFingerOpen lm 16 14) (isFingerOpen lm 20 18)) ∧
    (∀ thumb index middle ring pinky : Bool,
      classifyBits thumb index middle ring pinky =
        classifyBitsSpec thumb index middle ring pinky) ∧
    (∀ thumb index middle ring pinky : Bool,
      (classifyBits thumb index middle ring pinky = GestureType.LOVE ∨
       classifyBits thumb index middle ring pinky = GestureType.THREE ∨
       classifyBits thumb index middle ring pinky = GestureType.TWO ∨
       classifyBits thumb index middle ring pinky = GestureType.ONE ∨
       classifyBits thumb index middle ring pinky = GestureType.RESET) ∧
      (classifyBits thumb index middle ring pinky = GestureType.LOVE ↔
        (index && middle && ring && pinky) = true) ∧
      (classifyBits thumb index middle ring pinky = GestureType.THREE ↔
        ((index && middle && ring && !pinky) ||
         (thumb && index && middle && !ring && !pinky)) = true) ∧
      (classifyBits thumb index middle ring pinky = GestureType.TWO ↔
        ((index && middle && !ring && !pinky && !thumb) ||
         (thumb && index && !middle && !ring && !pinky)) = true) ∧
      (classifyBits thumb index middle ring pinky = GestureType.ONE ↔
        (index && !middle && !ring && !pinky && !thumb) = true)) := by
  refine ⟨rfl, fun lm => rfl, by decide, by decide⟩

/-- C3: each non-thumb finger (tip/pip indices 8/6, 12/10, 16/14, 20/18)
is open iff the squared wrist-to-tip distance exceeds 1.1 times the
squared wrist-to-pip distance, and the thumb is open iff the squared
distance from thumb tip (4) to index MCP (5) exceeds 0.6 times the squared
palm scale (wrist (0) to index MCP (5)). -/
theorem finger_open_thresholds (lm : HandFrame) :
    (isFingerOpen lm 8 6 = true ↔
      distSq (lm 0) (lm 8) > 1.1 * distSq (lm 0) (lm 6)) ∧
    (isFingerOpen lm 12 10 = true ↔
      distSq (lm 0) (lm 12) > 1.1 * distSq (lm 0) (lm 10)) ∧
    (isFingerOpen lm 16 14 = true ↔
      distSq (lm 0) (lm 16) > 1.1 * distSq (lm 0) (lm 14)) ∧
    (isFingerOpen lm 20 18 = true ↔
      distSq (lm 0) (lm 20) > 1.1 * distSq (lm 0) (lm 18)) ∧
    (thumbOpenTest lm = true ↔
      distSq (lm 4) (lm 5) > 0.6 * distSq (lm 0) (lm 5)) := by
  simp [isFingerOpen, thumbOpenTest, palmScaleSq, mul_comm]

/-- Invariant sustaining idempotence after an emission of `g`: `g` is the
last emitted label and fills at least 2 of the (at most 3) buffer slots. -/
abbrev DebounceInv (s : DebounceState) (g : GestureType) : Prop :=
  s.lastEmitted = g ∧ s.buffer.length ≤ 3 ∧ 2 ≤ s.buffer.count g

lemma debounce_buf_len (s : DebounceState) (raw : GestureType)
    (hlen : s.buffer.length ≤ 3) (buf : List GestureType)
    (hbuf : buf =
      if (s.buffer ++ [raw]).length > BUFFER_SIZE then (s.buffer ++ [raw]).tail
      else s.buffer ++ [raw]) : buf.length ≤ 3 := by
  subst hbuf
  by_cases hc : (s.buffer ++ [raw]).length > BUFFER_SIZE
  · rw [if_pos hc, List.length_tail]
    simp only [List.length_append, List.length_cons, List.length_nil]
    omega
  · rw [if_neg hc]
    simp only [gt_iff_lt, not_lt, BUFFER_SIZE] at hc
    exact hc

lemma debounce_scan_eq_specModal (s : DebounceState) (raw : GestureType)
    (hlen : s.buffer.length ≤ 3) (buf : List GestureType)
    (hbuf : buf =
      if (s.buffer ++ [raw]).length > BUFFER_SIZE then (s.buffer ++ [raw]).tail
      else s.buffer ++ [raw]) :
    modeScan buf (fun _ => 0) 0 s.lastEmitted = specModal buf s.lastEmitted := by
  subst hbuf
  obtain ⟨buf0, last⟩ := s
  simp only at hlen
  rcases buf0 with _ | ⟨a, _ | ⟨b, _ | ⟨c, _ | ⟨d, rest⟩⟩⟩⟩
  · revert raw last; decide
  · revert a raw last; decide
  · revert a b raw last; decide
  · revert a b c raw last; decide
  · simp only [List.length_cons] at hlen; omega

lemma specModal_count_le (b : List GestureType) (d : GestureType) :
    (specModal b d).2 ≤ b.count (specModal b d).1 := by
  have key : ∀ (l : List GestureType) (p : GestureType × ℕ), p.2 ≤ b.count p.1 →
      (l.foldl (fun best g => if b.count g > best.2 then (g, b.count g) else best) p).2 ≤
        b.count
          (l.foldl (fun best g => if b.count g > best.2 then (g, b.count g) else best) p).1 := by
    intro l
    induction l with
    | nil => exact fun p hp => hp
    | cons g l ih =>
      intro p hp
      simp only [List.foldl_cons]
      by_cases hgt : b.count g > p.2
      · rw [if_pos hgt]; exact ih _ le_rfl
      · rw [if_neg hgt]; exact ih p hp
  exact key _ _ (Nat.zero_le _)

lemma count_two_le (l : List GestureType) (x g : GestureType) (hxg : x ≠ g) :
    l.count x + l.count g ≤ l.length := by
  induction l with
  | nil => simp
  | cons a l ih =>
    simp only [List.count_cons, List.length_cons, beq_iff_eq]
    by_cases hax : a = x <;> by_cases hag : a = g
    · exact absurd (hax.symm.trans hag) hxg
    · rw [if_pos hax, if_neg hag]; omega
    · rw [if_neg hax, if_pos hag]; omega
    · rw [if_neg hax, if_neg hag]; omega

lemma mem_firstSeen (l : List GestureType) (a : GestureType) :
    a ∈ firstSeen l ↔ a ∈ l := by
  induction l with
  | nil => simp [firstSeen]
  | cons g l ih =>
    simp only [firstSeen, List.mem_cons, List.mem_filter]
    constructor
    · rintro (rfl | ⟨h1, _⟩)
      · exact Or.inl rfl
      · exact Or.inr (ih.mp h1)
    · rintro (rfl | h)
      · exact Or.inl rfl
      · by_cases hag : a = g
        · exact Or.inl hag
        · exact Or.inr ⟨ih.mpr h, by simpa using hag⟩

lemma specModal_dominant (b : List GestureType) (d g : GestureType)
    (hdom : b.length < 2 * b.count g) :
    specModal b d = (g, b.count g) := by
  have hpos : 0 < b.count g := by omega
  have hmem : g ∈ b := List.count_pos_iff.mp hpos
  have hlt : ∀ x, x ≠ g → b.count x < b.count g := by
    intro x hx
    have := count_two_le b x g hx
    have hle := List.count_le_length x b
    omega
  have hstay : ∀ (l : List GestureType),
      l.foldl (fun best y => if b.count y > best.2 then (y, b.count y) else best)
        (g, b.count g) = (g, b.count g) := by
    intro l
    induction l with
    | nil => rfl
    | cons y l ih =>
      simp only [List.foldl_cons]
      have hy : ¬ b.count y > (g, b.count g).2 := by
        by_cases hyg : y = g
        · subst hyg; simp
        · have := hlt y hyg; simp; omega
      rw [if_neg hy, ih]
  have hreach : ∀ (l : List GestureType) (p : GestureType × ℕ), g ∈ l → p.2 < b.count g →
      l.foldl (fun best y => if b.count y > best.2 then (y, b.count y) else best) p =
        (g, b.count g) := by
    intro l
    induction l with
    | nil => exact fun p hg _ => absurd hg (List.not_mem_nil g)
    | cons y l ih =>
      intro p hg hp2
      simp only [List.foldl_cons]
      by_cases hyg : y = g
      · subst hyg
        rw [if_pos hp2]
        exact hstay l
      · have hgl : g ∈ l := by
          rcases List.mem_cons.mp hg with h | h
          · exact absurd h.symm hyg
          · exact h
        by_cases hc : b.count y > p.2
        · rw [if_pos hc]
          exact ih (y, b.count y) hgl (hlt y hyg)
        · rw [if_neg hc]
          exact ih p hgl hp2
  have hfg : g ∈ firstSeen b := (mem_firstSeen b g).mpr hmem
  unfold specModal
  exact hreach (firstSeen b) (d, 0) hfg hpos

lemma debounce_update_eq (s : DebounceState) (raw : GestureType) (hp : Bool)
    (buf : List GestureType)
    (hbuf : buf =
      if (s.buffer ++ [raw]).length > BUFFER_SIZE then (s.buffer ++ [raw]).tail
      else s.buffer ++ [raw])
    (m : GestureType × ℕ)
    (hm : modeScan buf (fun _ => 0) 0 s.lastEmitted = m) :
    debounceUpdate s raw hp =
      (if 2 * m.2 > BUFFER_SIZE then
        if m.1 ≠ s.lastEmitted then (⟨buf, m.1⟩, some ⟨m.1, hp⟩)
        else (⟨buf, s.lastEmitted⟩, none)
      else (⟨buf, s.lastEmitted⟩, none)) := by
  subst hbuf
  simp only [debounceUpdate, hm]

lemma debounce_update_main (s : DebounceState) (raw : GestureType) (hp : Bool)
    (hlen : s.buffer.length ≤ 3) (buf : List GestureType)
    (hbuf : buf =
      if (s.buffer ++ [raw]).length > BUFFER_SIZE then (s.buffer ++ [raw]).tail
      else s.buffer ++ [raw])
    (m : GestureType × ℕ) (hm : m = specModal buf s.lastEmitted) :
    (debounceUpdate s raw hp).1.buffer = buf ∧
    buf.length ≤ 3 ∧
    modeScan buf (fun _ => 0) 0 s.lastEmitted = m ∧
    (debounceUpdate s raw hp).2 =
      (if 2 * m.2 > BUFFER_SIZE ∧ m.1 ≠ s.lastEmitted then some ⟨m.1, hp⟩ else none) ∧
    (debounceUpdate s raw hp).1.lastEmitted =
      (if 2 * m.2 > BUFFER_SIZE ∧ m.1 ≠ s.lastEmitted then m.1 else s.lastEmitted) ∧
    (∀ g trk, (debounceUpdate s raw hp).2 = some ⟨g, trk⟩ → 2 ≤ buf.count g) := by
  have hscan : modeScan buf (fun _ => 0) 0 s.lastEmitted = m := by
    rw [hm]; exact debounce_scan_eq_specModal s raw hlen buf hbuf
  have hupd := debounce_update_eq s raw hp buf hbuf m hscan
  have hbl := debounce_buf_len s raw hlen buf hbuf
  have hcle : m.2 ≤ buf.count m.1 := by
    rw [hm]; exact specModal_count_le buf s.lastEmitted
  refine ⟨?_, hbl, hscan, ?_, ?_, ?_⟩
  · rw [hupd]; split_ifs <;> rfl
  · rw [hupd]
    by_cases h1 : 2 * m.2 > BUFFER_SIZE
    · by_cases h2 : m.1 ≠ s.lastEmitted
      · rw [if_pos h1, if_pos h2, if_pos ⟨h1, h2⟩]
      · rw [if_pos h1, if_neg h2, if_neg (by tauto)]
    · rw [if_neg h1, if_neg (by tauto)]
  · rw [hupd]
    by_cases h1 : 2 * m.2 > BUFFER_SIZE
    · by_cases h2 : m.1 ≠ s.lastEmitted
      · rw [if_pos h1, if_pos h2, if_pos ⟨h1, h2⟩]
      · rw [if_pos h1, if_neg h2, if_neg (by tauto)]
    · rw [if_neg h1, if_neg (by tauto)]
  · intro g trk hemit
    rw [hupd] at hemit
    split_ifs at hemit with h1 h2
    · simp only [Option.some.injEq] at hemit
      have hg : m.1 = g := congrArg StableGestureState.gesture hemit
      simp only [gt_iff_lt, BUFFER_SIZE] at h1
      rw [hg] at hcle
      omega

lemma debounce_inv_step (s : DebounceState) (g : GestureType) (hp : Bool)
    (h : DebounceInv s g) :
    (debounceUpdate s g hp).2 = none ∧ DebounceInv (debounceUpdate s g hp).1 g := by
  obtain ⟨hlast, hlen, hcnt⟩ := h
  obtain ⟨buf, hbuf⟩ : ∃ buf, buf =
      if (s.buffer ++ [g]).length > BUFFER_SIZE then (s.buffer ++ [g]).tail
      else s.buffer ++ [g] := ⟨_, rfl⟩
  have hbl : buf.length ≤ 3 := debounce_buf_len s g hlen buf hbuf
  have hgg : ([g] : List GestureType).count g = 1 := by simp
  have hcnt2 : 2 ≤ buf.count g := by
    rw [hbuf]
    by_cases hc : (s.buffer ++ [g]).length > BUFFER_SIZE
    · rw [if_pos hc]
      rcases hsb : s.buffer with _ | ⟨a, t⟩
      · rw [hsb] at hcnt
        simp at hcnt
      · rw [hsb] at hcnt
        simp only [List.cons_append, List.tail_cons]
        rw [List.count_append, hgg]
        have ht : 1 ≤ t.count g := by
          have hsplit : (a :: t).count g ≤ t.count g + 1 := by
            rw [List.count_cons]; split <;> omega
          omega
        omega
    · rw [if_neg hc]
      rw [List.count_append, hgg]
      omega
  have hdom : buf.length < 2 * buf.count g := by omega
  have hm := specModal_dominant buf s.lastEmitted g hdom
  have hscan : modeScan buf (fun _ => 0) 0 s.lastEmitted = (g, buf.count g) := by
    rw [debounce_scan_eq_specModal s g hlen buf hbuf, hm]
  have hupd := debounce_update_eq s g hp buf hbuf (g, buf.count g) hscan
  rw [hupd, hlast]
  split_ifs with h1 h2
  · exact absurd rfl h2
  · exact ⟨rfl, rfl, hbl, hcnt2⟩
  · exact ⟨rfl, rfl, hbl, hcnt2⟩

lemma debounce_emit_inv (s : DebounceState) (raw : GestureType) (hp : Bool)
    (hlen : s.buffer.length ≤ 3) (trk : Bool)
    (hemit : (debounceUpdate s raw hp).2 = some ⟨raw, trk⟩) :
    DebounceInv (debounceUpdate s raw hp).1 raw := by
  obtain ⟨buf, hbuf⟩ : ∃ buf, buf =
      if (s.buffer ++ [raw]).length > BUFFER_SIZE then (s.buffer ++ [raw]).tail
      else s.buffer ++ [raw] := ⟨_, rfl⟩
  have hmain := debounce_update_main s raw hp hlen buf hbuf
    (specModal buf s.lastEmitted) rfl
  obtain ⟨h1, h2, _, h4, h5, h6⟩ := hmain
  have hcnt := h6 raw trk hemit
  rw [h4] at hemit
  split_ifs at hemit with hcond
  · simp only [Option.some.injEq] at hemit
    have hg : (specModal buf s.lastEmitted).1 = raw :=
      congrArg StableGestureState.gesture hemit
    refine ⟨?_, ?_, ?_⟩
    · rw [h5, if_pos hcond, hg]
    · rw [h1]; exact h2
    · rw [h1]; exact hcnt

lemma debounce_sustain_inv (s : DebounceState) (g : GestureType) (hp2 : Bool)
    (h : DebounceInv s g) : ∀ n, DebounceInv (sustain s g hp2 n) g := by
  intro n
  induction n with
  | zero => exact h
  | succ n ih => exact (debounce_inv_step _ _ _ ih).2

lemma debounce_no_reemit (s : DebounceState) (raw : GestureType) (hp : Bool)
    (hlen : s.buffer.length ≤ 3) :
    ∀ g trk, (debounceUpdate s raw hp).2 = some ⟨g, trk⟩ → g = raw →
      ∀ n hp2,
        (debounceUpdate (sustain (debounceUpdate s raw hp).1 raw hp2 n) raw hp2).2 = none := by
  intro g trk hemit hgr n hp2
  subst hgr
  have h1 : DebounceInv (debounceUpdate s g hp).1 g :=
    debounce_emit_inv s g hp hlen trk hemit
  exact (debounce_inv_step _ _ _ (debounce_sustain_inv _ _ hp2 h1 n)).1

/-- C2: one debouncer update pushes the raw label into the capacity-3
buffer (oldest evicted on overflow); the source's modal scan computes the
first-seen-wins modal label; a new `StableGestureState` carrying the modal
label and `isTracking = handPresent` is emitted iff the modal count
strictly exceeds half the capacity (2 of 3) and the modal label differs
from the last emitted one, the state holding otherwise; an emitted label
occupies at least 2 of the buffer slots; and after an emission of the
sustained raw gesture, further updates with that same raw gesture emit
nothing. -/
theorem debounce_update_contract (s : DebounceState) (raw : GestureType) (hp : Bool)
    (hlen : s.buffer.length ≤ 3) (buf : List GestureType)
    (hbuf : buf =
      if (s.buffer ++ [raw]).length > BUFFER_SIZE then (s.buffer ++ [raw]).tail
      else s.buffer ++ [raw])
    (m : GestureType × ℕ) (hm : m = specModal buf s.lastEmitted) :
    (debounceUpdate s raw hp).1.buffer = buf ∧
    buf.length ≤ 3 ∧
    modeScan buf (fun _ => 0) 0 s.lastEmitted = m ∧
    (debounceUpdate s raw hp).2 =
      (if 2 * m.2 > BUFFER_SIZE ∧ m.1 ≠ s.lastEmitted then some ⟨m.1, hp⟩ else none) ∧
    (debounceUpdate s raw hp).1.lastEmitted =
      (if 2 * m.2 > BUFFER_SIZE ∧ m.1 ≠ s.lastEmitted then m.1 else s.lastEmitted) ∧
    (∀ g trk, (debounceUpdate s raw hp).2 = some ⟨g, trk⟩ → 2 ≤ buf.count g) ∧
    (∀ g trk, (debounceUpdate s raw hp).2 = some ⟨g, trk⟩ → g = raw →
      ∀ n hp2,
        (debounceUpdate (sustain (debounceUpdate s raw hp).1 raw hp2 n) raw hp2).2 = none) := by
  have h := debounce_update_main s raw hp hlen buf hbuf m hm
  exact ⟨h.1, h.2.1, h.2.2.1, h.2.2.2.1, h.2.2.2.2.1, h.2.2.2.2.2,
    debounce_no_reemit s raw hp hlen⟩

/-- Witness for C2: from buffer `[ONE]` with last emission `RESET`, a
second raw `ONE` reaches modal count 2 and emits `{ONE, isTracking}`. -/
theorem debounce_update_contract_witness :
    (debounceUpdate ⟨[GestureType.ONE], GestureType.RESET⟩ GestureType.ONE true).2 =
      some ⟨GestureType.ONE, true⟩ := by
  have h := debounce_update_contract ⟨[GestureType.ONE], GestureType.RESET⟩
    GestureType.ONE true (by decide) [GestureType.ONE, GestureType.ONE] (by decide)
    (GestureType.ONE, 2) (by decide)
  exact h.2.2.2.1.trans (by decide)

lemma flat3_length (n : ℕ) (f : ℕ → ℝ × ℝ × ℝ) : (flat3 n f).length = 3 * n := by
  induction n with
  | zero => rfl
  | succ n ih => simp only [flat3, List.length_append, List.length_cons,
      List.length_nil, ih]; omega

lemma flat3_getD (n : ℕ) (f : ℕ → ℝ × ℝ × ℝ) (i : ℕ) (hi : i < n) :
    (flat3 n f).getD (3 * i) 0 = (f i).1 ∧
    (flat3 n f).getD (3 * i + 1) 0 = (f i).2.1 ∧
    (flat3 n f).getD (3 * i + 2) 0 = (f i).2.2 := by
  induction n with
  | zero => omega
  | succ n ih =>
    have hlen := flat3_length n f
    by_cases h : i < n
    · refine ⟨?_, ?_, ?_⟩ <;>
        simp only [flat3] <;>
        rw [List.getD_append _ _ _ _ (by omega)]
      · exact (ih h).1
      · exact (ih h).2.1
      · exact (ih h).2.2
    · have hin : i = n := by omega
      subst hin
      refine ⟨?_, ?_, ?_⟩ <;>
        simp only [flat3] <;>
        rw [List.getD_append_right _ _ _ _ (by omega), hlen]
      · have h0 : 3 * i - 3 * i = 0 := by omega
        rw [h0]; rfl
      · have h1 : 3 * i + 1 - 3 * i = 1 := by omega
        rw [h1]; rfl
      · have h2 : 3 * i + 2 - 3 * i = 2 := by omega
        rw [h2]; rfl

lemma flat3_getD_fst (n : ℕ) (f : ℕ → ℝ × ℝ × ℝ) {i : ℕ} (hi : i < n) :
    (flat3 n f).getD (3 * i) 0 = (f i).1 := (flat3_getD n f i hi).1

lemma flat3_getD_snd (n : ℕ) (f : ℕ → ℝ × ℝ × ℝ) {i : ℕ} (hi : i < n) :
    (flat3 n f).getD (3 * i + 1) 0 = (f i).2.1 := (flat3_getD n f i hi).2.1

lemma flat3_getD_thd (n : ℕ) (f : ℕ → ℝ × ℝ × ℝ) {i : ℕ} (hi : i < n) :
    (flat3 n f).getD (3 * i + 2) 0 = (f i).2.2 := (flat3_getD n f i hi).2.2

lemma speed_cases (g : GestureType) : speed g = 0.1 ∨ speed g = 0.2 := by
  by_cases h : g = GestureType.LOVE
  · right; simp [speed, h]
  · left; simp [speed, h, MORPH_SPEED]

lemma lerpStep_props (c tv r : ℝ) (h0 : 0 < r) (h1 : r ≤ 1) :
    tv - lerpStep c tv r = (1 - r) * (tv - c) ∧
    (tv - c ≠ 0 → |tv - lerpStep c tv r| < |tv - c|) ∧
    min c tv ≤ lerpStep c tv r ∧ lerpStep c tv r ≤ max c tv ∧
    |lerpStep c tv r - c| ≤ r * |tv - c| := by
  have heq : tv - lerpStep c tv r = (1 - r) * (tv - c) := by unfold lerpStep; ring
  refine ⟨heq, ?_, ?_, ?_, ?_⟩
  · intro hne
    rw [heq, abs_mul]
    have h2 : |(1 : ℝ) - r| < 1 := by rw [abs_of_nonneg (by linarith)]; linarith
    have h3 : 0 < |tv - c| := abs_pos.mpr hne
    nlinarith [abs_nonneg (tv - c)]
  · rcases le_total c tv with h | h
    · rw [min_eq_left h]; unfold lerpStep; nlinarith
    · rw [min_eq_right h]; unfold lerpStep; nlinarith
  · rcases le_total c tv with h | h
    · rw [max_eq_right h]; unfold lerpStep; nlinarith
    · rw [max_eq_left h]; unfold lerpStep; nlinarith
  · have hd : lerpStep c tv r - c = r * (tv - c) := by unfold lerpStep; ring
    rw [hd, abs_mul, abs_of_pos h0]

/-- C4: each frame updates every slot `i`, per axis, by
`current += (effectiveTarget - current) * rate` with rate 0.2 for `LOVE`
and 0.1 otherwise, applies the identical rule at the identical rate to the
three color channels of the same slot, and slot `i` always moves toward
slot `i` of the currently selected gesture's target field. -/
theorem morph_step_rule (envs : GestureType → RasterEnv) (rnds : GestureType → ℕ → ℝ)
    (cur curColors : List ℝ) (gesture : GestureType) (t : ℝ) (i : ℕ)
    (hi : i < PARTICLE_COUNT) :
    (morphStep envs rnds cur curColors gesture t).1.getD (3 * i) 0 =
      cur.getD (3 * i) 0 +
        (effTargetX (targetFor envs rnds gesture).1 gesture t i - cur.getD (3 * i) 0) *
          (if gesture = GestureType.LOVE then 0.2 else 0.1) ∧
    (morphStep envs rnds cur curColors gesture t).1.getD (3 * i + 1) 0 =
      cur.getD (3 * i + 1) 0 +
        (effTargetY (targetFor envs rnds gesture).1 gesture t i - cur.getD (3 * i + 1) 0) *
          (if gesture = GestureType.LOVE then 0.2 else 0.1) ∧
    (morphStep envs rnds cur curColors gesture t).1.getD (3 * i + 2) 0 =
      cur.getD (3 * i + 2) 0 +
        (effTargetZ (targetFor envs rnds gesture).1 i - cur.getD (3 * i + 2) 0) *
          (if gesture = GestureType.LOVE then 0.2 else 0.1) ∧
    (morphStep envs rnds cur curColors gesture t).2.getD (3 * i) 0 =
      curColors.getD (3 * i) 0 +
        ((targetFor envs rnds gesture).2.getD (3 * i) 0 - curColors.getD (3 * i) 0) *
          (if gesture = GestureType.LOVE then 0.2 else 0.1) ∧
    (morphStep envs rnds cur curColors gesture t).2.getD (3 * i + 1) 0 =
      curColors.getD (3 * i + 1) 0 +
        ((targetFor envs rnds gesture).2.getD (3 * i + 1) 0 - curColors.getD (3 * i + 1) 0) *
          (if gesture = GestureType.LOVE then 0.2 else 0.1) ∧
    (morphStep envs rnds cur curColors gesture t).2.getD (3 * i + 2) 0 =
      curColors.getD (3 * i + 2) 0 +
        ((targetFor envs rnds gesture).2.getD (3 * i + 2) 0 - curColors.getD (3 * i + 2) 0) *
          (if gesture = GestureType.LOVE then 0.2 else 0.1) := by
  have hrate : speed gesture = if gesture = GestureType.LOVE then 0.2 else 0.1 := by
    by_cases h : gesture = GestureType.LOVE
    · simp [speed, h]
    · simp [speed, h, MORPH_SPEED]
  refine ⟨?_, ?_, ?_, ?_, ?_, ?_⟩
  · simp only [morphStep, morphPositions]
    rw [flat3_getD_fst _ _ hi]
    simp only [lerpStep, hrate]
  · simp only [morphStep, morphPositions]
    rw [flat3_getD_snd _ _ hi]
    simp only [lerpStep, hrate]
  · simp only [morphStep, morphPositions]
    rw [flat3_getD_thd _ _ hi]
    simp only [lerpStep, hrate]
  · simp only [morphStep, morphColors]
    rw [flat3_getD_fst _ _ hi]
    simp only [lerpStep, hrate]
  · simp only [morphStep, morphColors]
    rw [flat3_getD_snd _ _ hi]
    simp only [lerpStep, hrate]
  · simp only [morphStep, morphColors]
    rw [flat3_getD_thd _ _ hi]
    simp only [lerpStep, hrate]

/-- Witness for C4 at slot 0 with dummy external inputs under `ONE`. -/
theorem morph_step_rule_witness :
    (morphStep (fun _ => ⟨false, 0, 0, fun _ => 0⟩) (fun _ _ => 0) [] []
        GestureType.ONE 0).1.getD 0 0 =
      ([] : List ℝ).getD 0 0 +
        (effTargetX (targetFor (fun _ => ⟨false, 0, 0, fun _ => 0⟩) (fun _ _ => 0)
            GestureType.ONE).1 GestureType.ONE 0 0 - ([] : List ℝ).getD 0 0) *
          (if GestureType.ONE = GestureType.LOVE then 0.2 else 0.1) :=
  (morph_step_rule (fun _ => ⟨false, 0, 0, fun _ => 0⟩) (fun _ _ => 0) [] []
    GestureType.ONE 0 0 (by norm_num [PARTICLE_COUNT])).1

/-- C5: with a constant effective target (any gesture other than `RESET`)
and the gesture's rate (0.1 or 0.2), one morph step scales the per-axis
signed distance to the target by exactly `1 - rate`; the distance strictly
decreases whenever it is nonzero; the updated value stays between the
previous value and the target (no overshoot, no side change); and the
per-step displacement is at most `rate` times the current distance. -/
theorem morph_no_overshoot (cur target : List ℝ) (gesture : GestureType) (t : ℝ)
    (count i k : ℕ) (hg : gesture ≠ GestureType.RESET) (hi : i < count) (hk : k < 3) :
    (speed gesture = 0.1 ∨ speed gesture = 0.2) ∧
    target.getD (3 * i + k) 0 -
        (morphPositions cur target gesture t count).getD (3 * i + k) 0 =
      (1 - speed gesture) *
        (target.getD (3 * i + k) 0 - cur.getD (3 * i + k) 0) ∧
    (target.getD (3 * i + k) 0 - cur.getD (3 * i + k) 0 ≠ 0 →
      |target.getD (3 * i + k) 0 -
          (morphPositions cur target gesture t count).getD (3 * i + k) 0| <
        |target.getD (3 * i + k) 0 - cur.getD (3 * i + k) 0|) ∧
    min (cur.getD (3 * i + k) 0) (target.getD (3 * i + k) 0) ≤
      (morphPositions cur target gesture t count).getD (3 * i + k) 0 ∧
    (morphPositions cur target gesture t count).getD (3 * i + k) 0 ≤
      max (cur.getD (3 * i + k) 0) (target.getD (3 * i + k) 0) ∧
    |(morphPositions cur target gesture t count).getD (3 * i + k) 0 -
        cur.getD (3 * i + k) 0| ≤
      speed gesture * |target.getD (3 * i + k) 0 - cur.getD (3 * i + k) 0| := by
  have h0 : 0 < speed gesture := by
    rcases speed_cases gesture with h | h <;> rw [h] <;> norm_num
  have h1 : speed gesture ≤ 1 := by
    rcases speed_cases gesture with h | h <;> rw [h] <;> norm_num
  have hmorph :
      (morphPositions cur target gesture t count).getD (3 * i + k) 0 =
        lerpStep (cur.getD (3 * i + k) 0) (target.getD (3 * i + k) 0) (speed gesture) := by
    match k, hk with
    | 0, _ =>
      simp only [morphPositions, Nat.add_zero]
      rw [flat3_getD_fst _ _ hi]
      simp only [effTargetX, if_neg hg]
    | 1, _ =>
      simp only [morphPositions]
      rw [flat3_getD_snd _ _ hi]
      simp only [effTargetY, if_neg hg]
    | 2, _ =>
      simp only [morphPositions]
      rw [flat3_getD_thd _ _ hi]
      simp only [effTargetZ]
  rw [hmorph]
  have hp := lerpStep_props (cur.getD (3 * i + k) 0) (target.getD (3 * i + k) 0)
    (speed gesture) h0 h1
  exact ⟨speed_cases gesture, hp.1, hp.2.1, hp.2.2.1, hp.2.2.2.1, hp.2.2.2.2⟩

/-- Witness for C5: axis 0 of slot 0 under `ONE`, moving from 0 toward 1,
lands at distance scaled by `1 - rate`. -/
theorem morph_no_overshoot_witness :
    ([(1 : ℝ), 1, 1].getD 0 0 -
        (morphPositions [0, 0, 0] [1, 1, 1] GestureType.ONE 0 1).getD 0 0) =
      (1 - speed GestureType.ONE) *
        ([(1 : ℝ), 1, 1].getD 0 0 - ([(0 : ℝ), 0, 0] : List ℝ).getD 0 0) :=
  (morph_no_overshoot [0, 0, 0] [1, 1, 1] GestureType.ONE 0 1 0 0
    (by decide) (by norm_num) (by norm_num)).2.1

/-- C9: under `RESET`, every slot's effective target is the cloud target
offset by `sin(t*0.5 + i) * 0.5` in x and `cos(t*0.3 + i*0.5) * 0.5` in y,
with z unperturbed; the per-axis offset magnitude never exceeds 0.5; and
the perturbation is a pure function of the elapsed time (recomputed each
frame, never stored in the particle state). -/
theorem idle_perturbation (cur target : List ℝ) (t : ℝ) (count i : ℕ)
    (hi : i < count) :
    (morphPositions cur target GestureType.RESET t count).getD (3 * i) 0 =
      lerpStep (cur.getD (3 * i) 0)
        (target.getD (3 * i) 0 + Real.sin (t * 0.5 + i) * 0.5) 0.1 ∧
    (morphPositions cur target GestureType.RESET t count).getD (3 * i + 1) 0 =
      lerpStep (cur.getD (3 * i + 1) 0)
        (target.getD (3 * i + 1) 0 + Real.cos (t * 0.3 + i * 0.5) * 0.5) 0.1 ∧
    (morphPositions cur target GestureType.RESET t count).getD (3 * i + 2) 0 =
      lerpStep (cur.getD (3 * i + 2) 0) (target.getD (3 * i + 2) 0) 0.1 ∧
    |Real.sin (t * 0.5 + i) * 0.5| ≤ 0.5 ∧
    |Real.cos (t * 0.3 + i * 0.5) * 0.5| ≤ 0.5 := by
  have hspeed : speed GestureType.RESET = 0.1 := by simp [speed, MORPH_SPEED]
  refine ⟨?_, ?_, ?_, ?_, ?_⟩
  · simp only [morphPositions]
    rw [flat3_getD_fst _ _ hi]
    simp [effTargetX, hspeed]
  · simp only [morphPositions]
    rw [flat3_getD_snd _ _ hi]
    simp [effTargetY, hspeed]
  · simp only [morphPositions]
    rw [flat3_getD_thd _ _ hi]
    simp only [effTargetZ, hspeed]
  · rw [abs_mul]
    have hs := Real.abs_sin_le_one (t * 0.5 + i)
    have h5 : |(0.5 : ℝ)| = 0.5 := by norm_num
    rw [h5]
    nlinarith [abs_nonneg (Real.sin (t * 0.5 + i))]
  · rw [abs_mul]
    have hs := Real.abs_cos_le_one (t * 0.3 + i * 0.5)
    have h5 : |(0.5 : ℝ)| = 0.5 := by norm_num
    rw [h5]
    nlinarith [abs_nonneg (Real.cos (t * 0.3 + i * 0.5))]

/-- Witness for C9: the x offset at slot 0, time 0 is `sin 0 * 0.5`, whose
magnitude is within the 0.5 amplitude. -/
theorem idle_perturbation_witness :
    |Real.sin ((0 : ℝ) * 0.5 + ((0 : ℕ) : ℝ)) * 0.5| ≤ 0.5 :=
  (idle_perturbation [] [] 0 1 0 (by norm_num)).2.2.2.1

/-- C7: on every branch of the generators (missing 2D context, empty
lit-pixel fallback, normal text rasterization, cloud), the produced
position and color arrays have length exactly `3 * P`, identically across
all five gestures, and the morph engine's output field keeps length
`3 * PARTICLE_COUNT` on every frame. -/
theorem field_length_invariant :
    (∀ (rnd : ℕ → ℝ) (n : ℕ),
      (generateCloudParticles rnd n).1.length = 3 * n ∧
      (generateCloudParticles rnd n).2.length = 3 * n) ∧
    (∀ (env : RasterEnv) (rnd : ℕ → ℝ) (n : ℕ),
      (generateTextParticles env rnd n).1.length = 3 * n ∧
      (generateTextParticles env rnd n).2.length = 3 * n) ∧
    (∀ (envs : GestureType → RasterEnv) (rnds : GestureType → ℕ → ℝ) (g : GestureType),
      (targetFor envs rnds g).1.length = 3 * PARTICLE_COUNT ∧
      (targetFor envs rnds g).2.length = 3 * PARTICLE_COUNT) ∧
    (∀ (envs : GestureType → RasterEnv) (rnds : GestureType → ℕ → ℝ)
        (cur curColors : List ℝ) (g : GestureType) (t : ℝ),
      (morphStep envs rnds cur curColors g t).1.length = 3 * PARTICLE_COUNT ∧
      (morphStep envs rnds cur curColors g t).2.length = 3 * PARTICLE_COUNT) := by
  have hcloud : ∀ (rnd : ℕ → ℝ) (n : ℕ),
      (generateCloudParticles rnd n).1.length = 3 * n ∧
      (generateCloudParticles rnd n).2.length = 3 * n := by
    intro rnd n
    constructor <;> simp [generateCloudParticles, flat3_length]
  have htext : ∀ (env : RasterEnv) (rnd : ℕ → ℝ) (n : ℕ),
      (generateTextParticles env rnd n).1.length = 3 * n ∧
      (generateTextParticles env rnd n).2.length = 3 * n := by
    intro env rnd n
    by_cases hctx : env.ctxOk = false
    · constructor <;> simp [generateTextParticles, hctx, Nat.mul_comm]
    · by_cases hv : collectValid env.width env.height env.data = []
      · have hc := hcloud rnd n
        constructor <;> simp [generateTextParticles, hctx, hv, hc.1, hc.2]
      · constructor <;> simp [generateTextParticles, hctx, hv, flat3_length]
  refine ⟨hcloud, htext, ?_, ?_⟩
  · intro envs rnds g
    cases g
    · exact hcloud _ _
    · exact htext _ _ _
    · exact htext _ _ _
    · exact htext _ _ _
    · exact htext _ _ _
  · intro envs rnds cur curColors g t
    constructor <;>
      simp [morphStep, morphPositions, morphColors, flat3_length]

/-- C8: when the context was acquired but rasterization produced no lit
pixel, `generateTextParticles` returns exactly the cloud field for the
same particle count. -/
theorem empty_lit_fallback (env : RasterEnv) (rnd : ℕ → ℝ) (n : ℕ)
    (hctx : env.ctxOk = true)
    (hempty : collectValid env.width env.height env.data = []) :
    generateTextParticles env rnd n = generateCloudParticles rnd n := by
  simp [generateTextParticles, hctx, hempty]

/-- Witness for C8: a 1-by-1 all-black raster has no lit pixel, so the
text generator returns the cloud field. -/
theorem empty_lit_fallback_witness :
    generateTextParticles ⟨true, 1, 1, fun _ => 0⟩ (fun _ => 0) 2 =
      generateCloudParticles (fun _ => 0) 2 :=
  empty_lit_fallback ⟨true, 1, 1, fun _ => 0⟩ (fun _ => 0) 2 rfl (by decide)

/-- C10: when the 2D context cannot be acquired, `generateTextParticles`
returns all-zero position and color arrays of length `3 * P` (every
particle at the origin, black), and in particular does not fall back to
the cloud field on this branch. -/
theorem no_ctx_zero_field (env : RasterEnv) (rnd : ℕ → ℝ) (n : ℕ)
    (hctx : env.ctxOk = false) :
    generateTextParticles env rnd n =
      (List.replicate (n * 3) 0, List.replicate (n * 3) 0) ∧
    (0 < n → generateTextParticles env rnd n ≠ generateCloudParticles rnd n) := by
  have hz : generateTextParticles env rnd n =
      (List.replicate (n * 3) 0, List.replicate (n * 3) 0) := by
    simp [generateTextParticles, hctx]
  refine ⟨hz, fun hn hcontra => ?_⟩
  have h1 : (generateCloudParticles rnd n).2.getD 0 0 = 0.1 := by
    have hf := flat3_getD_fst n (fun _ => ((0.1 : ℝ), 0.15, 0.2)) (i := 0) hn
    simpa [generateCloudParticles] using hf
  have h2 : (List.replicate (n * 3) (0 : ℝ)).getD 0 0 = 0 := by
    have hlt : 0 < n * 3 := by omega
    rw [List.getD_eq_getElem _ _ (by simpa using hlt)]
    simp
  rw [← hcontra, hz] at h1
  rw [h2] at h1
  norm_num at h1

/-- Witness for C10: with an unavailable context and one particle, the
generator returns the zero arrays. -/
theorem no_ctx_zero_field_witness :
    generateTextParticles ⟨false, 0, 0, fun _ => 0⟩ (fun _ => 0) 1 =
      (List.replicate (1 * 3) 0, List.replicate (1 * 3) 0) :=
  (no_ctx_zero_field ⟨false, 0, 0, fun _ => 0⟩ (fun _ => 0) 1 rfl).1

/-- C6 counterexample: the code pairs each lit pixel with the color it
reads back from the raster, so a rasterized gray pixel (RGB bytes all 100,
above the 30 threshold) is paired with `(100/255, 100/255, 100/255)` —
neither exact white nor exact red, refuting per-glyph color assignment. -/
theorem text_colors_not_per_glyph :
    ¬ (∀ c ∈ pixelColorsOf 1 1 (fun j => if j < 3 then 100 else 0),
        c = ((1 : ℝ), 1, 1) ∨ c = ((1 : ℝ), 0, 0)) := by
  intro hall
  have hv : collectValid 1 1 (fun j => if j < 3 then 100 else 0) = [0] := by decide
  have hmem : ((100 / 255 : ℝ), 100 / 255, 100 / 255) ∈
      pixelColorsOf 1 1 (fun j => if j < 3 then 100 else 0) := by
    simp [pixelColorsOf, hv]
  rcases hall _ hmem with hc | hc <;>
  · have hfst := congrArg Prod.fst hc
    norm_num at hfst

/-- C6 amended: every lit pixel (raster index in range with some RGB byte
above 30) is paired with its own rasterized color, normalized bytewise as
`(r/255, g/255, b/255)` by inspecting the image data — the drawing step
sets explicit per-glyph fill colors (white letters, red heart), but the
particle colors are whatever the raster holds at the sampled lit pixel, so
each particle color triple equals the inspected color of the lit pixel its
slot sampled. -/
theorem text_colors_by_inspection (env : RasterEnv) (rnd : ℕ → ℝ) (n i : ℕ)
    (hi : i < n) (hctx : env.ctxOk = true)
    (hne : collectValid env.width env.height env.data ≠ []) :
    (∀ j, j ∈ collectValid env.width env.height env.data ↔
      j < env.width * env.height ∧
        (30 < env.data (4 * j) ∨ 30 < env.data (4 * j + 1) ∨
          30 < env.data (4 * j + 2))) ∧
    pixelColorsOf env.width env.height env.data =
      (collectValid env.width env.height env.data).map
        (fun j => ((env.data (4 * j) : ℝ) / 255, (env.data (4 * j + 1) : ℝ) / 255,
          (env.data (4 * j + 2) : ℝ) / 255)) ∧
    ((generateTextParticles env rnd n).2.getD (3 * i) 0,
     (generateTextParticles env rnd n).2.getD (3 * i + 1) 0,
     (generateTextParticles env rnd n).2.getD (3 * i + 2) 0) =
      (pixelColorsOf env.width env.height env.data).getD
        (⌊rnd i * ((collectValid env.width env.height env.data).length : ℝ)⌋).toNat
        (0, 0, 0) := by
  refine ⟨?_, rfl, ?_⟩
  · intro j
    simp [collectValid, List.mem_filter, List.mem_range]
  · have hgen : (generateTextParticles env rnd n).2 =
        flat3 n (fun k =>
          (pixelColorsOf env.width env.height env.data).getD
            (⌊rnd k * ((collectValid env.width env.height env.data).length : ℝ)⌋).toNat
            (0, 0, 0)) := by
      simp [generateTextParticles, hctx, hne]
    rw [hgen, flat3_getD_fst _ _ hi, flat3_getD_snd _ _ hi, flat3_getD_thd _ _ hi]

/-- Witness for the amended C6: a gray lit pixel's inspected color is what
slot 0 of the generated field carries. -/
theorem text_colors_by_inspection_witness :
    ((generateTextParticles ⟨true, 1, 1, fun j => if j < 3 then 100 else 0⟩
        (fun _ => 0) 1).2.getD 0 0,
     (generateTextParticles ⟨true, 1, 1, fun j => if j < 3 then 100 else 0⟩
        (fun _ => 0) 1).2.getD 1 0,
     (generateTextParticles ⟨true, 1, 1, fun j => if j < 3 then 100 else 0⟩
        (fun _ => 0) 1).2.getD 2 0) =
      (pixelColorsOf 1 1 (fun j => if j < 3 then 100 else 0)).getD
        (⌊(0 : ℝ) *
            ((collectValid 1 1 (fun j => if j < 3 then 100 else 0)).length : ℝ)⌋).toNat
        (0, 0, 0) :=
  (text_colors_by_inspection ⟨true, 1, 1, fun j => if j < 3 then 100 else 0⟩
    (fun _ => 0) 1 0 (by norm_num) rfl (by decide)).2.2
